import Mathlib

/-!
Shallow embedding of the `falls` repository (src/agents), a schema-validation
and JSON-generation layer for particle/weather runtime configuration.

Conventions of the embedding:
* Python floats are modelled as rationals (`ℚ`); the exceptional value NaN is
  modelled by the dedicated constructor `PyNum.nan`, and every float that can
  reach the shared `clamp` primitive from a caller-controlled position goes
  through `PyNum`.  Arithmetic on the values the repository actually produces
  is exact, so `ℚ` is a faithful model.
* Python ints are modelled as `ℤ`.
* Functions that can raise `ValidationError` are modelled as
  `Except String α`, the error string being the message raised.
* Dataclasses with a `__post_init__` validation step are modelled as a plain
  structure holding the *stored* (post-validation) fields, together with a
  `make` function performing the construction-time normalisation.
* `to_dict` results are modelled by the JSON-value type `JVal`; Python dict
  insertion order is the list order of `JVal.obj`.
-/

namespace Falls

/-- A Python float: either NaN or an exact numeric value. -/
inductive PyNum where
  | nan : PyNum
  | num (q : ℚ) : PyNum
deriving DecidableEq

/-- `SCHEMA_VERSION` from src/agents/schema.py. -/
def SCHEMA_VERSION : String := "1.0"

/-- `MAX_PARTICLE_RATE` from src/agents/schema.py. -/
def MAX_PARTICLE_RATE : ℤ := 100000

/-- `MAX_BURST_COUNT` from src/agents/schema.py. -/
def MAX_BURST_COUNT : ℤ := 100000

/-- `MAX_WIND_SPEED` from src/agents/schema.py. -/
def MAX_WIND_SPEED : ℚ := 400

/-- `MAX_VORTEX_SPEED` from src/agents/schema.py. -/
def MAX_VORTEX_SPEED : ℚ := 500

/-- `MAX_TORNADO_RADIUS` from src/agents/schema.py. -/
def MAX_TORNADO_RADIUS : ℚ := 0.5

/-- `MAX_ACCUMULATION_HEIGHT` from src/agents/schema.py. -/
def MAX_ACCUMULATION_HEIGHT : ℚ := 512

/-- `MAX_EXPORT_DUR` constant (`MAX_EXPORT_DURATION` in the source). -/
def MAX_EXPORT_DUR : ℚ := 120

/-- `MAX_EXPORT_RESOLUTION` from src/agents/schema.py. -/
def MAX_EXPORT_RESOLUTION : ℤ := 4096

/-- The numeric path of `clamp` (src/agents/schema.py, lines 22-31): pin a
non-NaN value inside the optionally-given bounds, lower bound first. -/
def clampQ (value : ℚ) (min_value max_value : Option ℚ) : ℚ :=
  let v1 := match min_value with
    | some lo => if value < lo then lo else value
    | none => value
  match max_value with
    | some hi => if hi < v1 then hi else v1
    | none => v1

/-- `clamp` from src/agents/schema.py, lines 22-31.  The source first tests
`value != value` (true exactly for NaN) and raises `ValidationError`; a
numeric value is pinned inside the bounds by the two comparisons modelled in
`clampQ`.  The bounds at every call site of the repository are numeric
literals, hence `Option ℚ`. -/
def clamp (value : PyNum) (min_value max_value : Option ℚ) : Except String ℚ :=
  match value with
  | .nan => .error "value cannot be NaN"
  | .num v => .ok (clampQ v min_value max_value)

/-- Models `int(clamp(float(n), lo, hi))` for an integer `n` and integer
bounds, as used for `rate_per_sec`, `count`, `fps`, `w`, `h` and `seed`:
`float` of an int is never NaN, and `int` of an integral float is exact, so
the composite is the integer clamp below (same comparison order as `clamp`). -/
def clampInt (n lo hi : ℤ) : ℤ :=
  let v1 := if n < lo then lo else n
  if hi < v1 then hi else v1

/-- Python's `path.startswith(pre)`: `pre` is a prefix of the character
sequence of `path`. -/
def pyStartsWith (path pre : String) : Bool :=
  decide (pre.data <+: path.data)

/-- `ensure_runtime_path` from src/agents/schema.py, lines 34-39. -/
def ensure_runtime_path (path : String) : Except String String :=
  if ¬ pyStartsWith path "res://runtime/" then
    .error "runtime assets must be stored under res://runtime/"
  else
    .ok path

/-- `ensure_palette` from src/agents/schema.py, lines 42-46.  Python keeps the
truthy entries (for `str`, exactly the non-empty ones) and raises when none
remain. -/
def ensure_palette (palette : List String) : Except String (List String) :=
  let colors := palette.filter (fun color => color != "")
  if colors = [] then .error "palette must contain at least one color"
  else .ok colors

/-- A JSON value, the codomain of the `to_dict` serializers.  Python dict
insertion order is modelled by the order of the association list in `obj`. -/
inductive JVal where
  | str (s : String) : JVal
  | int (n : ℤ) : JVal
  | rat (q : ℚ) : JVal
  | bool (b : Bool) : JVal
  | arr (xs : List JVal) : JVal
  | obj (fields : List (String × JVal)) : JVal

/-- Look a key up in a serialized object (first matching key wins, as in a
Python dict, whose keys are unique anyway). -/
def jGet (v : JVal) (key : String) : Option JVal :=
  match v with
  | .obj fields => fields.lookup key
  | _ => none

/-- `BurstSettings` (src/agents/schema.py, lines 57-67): stored fields after
`__post_init__`. -/
structure BurstSettings where
  interval_sec : ℚ
  count : ℤ
deriving DecidableEq

/-- Construction of `BurstSettings`: `interval_sec` goes through
`clamp(..., min_value=0.0)` (so a NaN interval fails construction) and
`count` through `int(clamp(float(count), 0.0, MAX_BURST_COUNT))`. -/
def BurstSettings.make (interval_sec : PyNum) (count : ℤ) :
    Except String BurstSettings := do
  let i ← clamp interval_sec (some 0) none
  pure { interval_sec := i, count := clampInt count 0 MAX_BURST_COUNT }

/-- `BurstSettings.to_dict` (src/agents/schema.py, lines 66-67). -/
def BurstSettings.to_dict (b : BurstSettings) : JVal :=
  .obj [("interval_sec", .rat b.interval_sec), ("count", .int b.count)]

/-- `SpawnBand` (src/agents/schema.py, lines 70-80): stored fields. -/
structure SpawnBand where
  y : ℚ
  height : ℚ
deriving DecidableEq

/-- Construction of `SpawnBand`: both coordinates clamped into [0, 1]. -/
def SpawnBand.make (y height : ℚ) : SpawnBand :=
  { y := clampQ y (some 0) (some 1), height := clampQ height (some 0) (some 1) }

/-- `SpawnBand.to_dict`. -/
def SpawnBand.to_dict (s : SpawnBand) : JVal :=
  .obj [("y", .rat s.y), ("height", .rat s.height)]

/-- `EmitterSettings` (src/agents/schema.py, lines 83-108): stored fields. -/
structure EmitterSettings where
  type : String
  rate_per_sec : ℤ
  spawn_band : SpawnBand
  burst : Option BurstSettings
  random_seed : Option ℤ
deriving DecidableEq

/-- Construction of `EmitterSettings` (`__post_init__`, lines 91-96):
`rate_per_sec` is clamped into [0, MAX_PARTICLE_RATE]; a non-None
`random_seed` is masked with `int(seed) & 0xFFFFFFFF`, which on a Python int
is reduction modulo 2^32 (Lean's `%` on `ℤ` yields the same non-negative
representative). -/
def EmitterSettings.make (type : String) (rate_per_sec : ℤ)
    (spawn_band : SpawnBand) (burst : Option BurstSettings)
    (random_seed : Option ℤ) : EmitterSettings :=
  { type := type,
    rate_per_sec := clampInt rate_per_sec 0 MAX_PARTICLE_RATE,
    spawn_band := spawn_band,
    burst := burst,
    random_seed := random_seed.map (fun s => s % 4294967296) }

/-- `EmitterSettings.to_dict` (lines 98-108).  The source guards the burst
entry with `if self.burst:`; a dataclass instance is always truthy, so this
is a None test. -/
def EmitterSettings.to_dict (e : EmitterSettings) : JVal :=
  .obj ([("type", .str e.type), ("rate_per_sec", .int e.rate_per_sec),
      ("spawn_band", e.spawn_band.to_dict)]
    ++ (match e.burst with
        | some b => [("burst", b.to_dict)]
        | none => [])
    ++ (match e.random_seed with
        | some s => [("random_seed", .int s)]
        | none => []))

/-- `SizeRange` (src/agents/schema.py, lines 111-121): stored fields. -/
structure SizeRange where
  min : ℚ
  max : ℚ
deriving DecidableEq

/-- Construction of `SizeRange`: `min` is clamped to be ≥ 0, then `max` is
clamped to be ≥ `max(min, 0.0)` where `min` is the already-clamped value. -/
def SizeRange.make (min max : ℚ) : SizeRange :=
  let m := clampQ min (some 0) none
  { min := m, max := clampQ max (some (Max.max m 0)) none }

/-- `SizeRange.to_dict`. -/
def SizeRange.to_dict (s : SizeRange) : JVal :=
  .obj [("min", .rat s.min), ("max", .rat s.max)]

/-- `AppearanceSettings` (src/agents/schema.py, lines 124-140): stored
fields. -/
structure AppearanceSettings where
  palette : List String
  size_px : SizeRange
  sprite : String
deriving DecidableEq

/-- Construction of `AppearanceSettings`: the palette goes through
`ensure_palette`, and an empty (falsy) sprite path is rejected. -/
def AppearanceSettings.make (palette : List String) (size_px : SizeRange)
    (sprite : String) : Except String AppearanceSettings := do
  let pal ← ensure_palette palette
  if sprite = "" then .error "sprite path cannot be empty"
  else pure { palette := pal, size_px := size_px, sprite := sprite }

/-- `AppearanceSettings.to_dict`. -/
def AppearanceSettings.to_dict (a : AppearanceSettings) : JVal :=
  .obj [("palette", .arr (a.palette.map .str)),
    ("size_px", a.size_px.to_dict), ("sprite", .str a.sprite)]

/-- `MotionSettings` (src/agents/schema.py, lines 143-167): stored fields. -/
structure MotionSettings where
  drag : ℚ
  sway_amp : ℚ
  sway_freq : ℚ
  spin_deg_per_sec : ℚ
  gravity : ℚ
  glide_lift : ℚ
deriving DecidableEq

/-- Construction of `MotionSettings`: six fixed-range clamps. -/
def MotionSettings.make (drag sway_amp sway_freq spin_deg_per_sec gravity
    glide_lift : ℚ) : MotionSettings :=
  { drag := clampQ drag (some 0) (some 5),
    sway_amp := clampQ sway_amp (some 0) (some 180),
    sway_freq := clampQ sway_freq (some 0) (some 5),
    spin_deg_per_sec := clampQ spin_deg_per_sec (some (-720)) (some 720),
    gravity := clampQ gravity (some (-5000)) (some 5000),
    glide_lift := clampQ glide_lift (some 0) (some 5) }

/-- `MotionSettings.to_dict` (lines 160-167). -/
def MotionSettings.to_dict (m : MotionSettings) : JVal :=
  .obj [("drag", .rat m.drag),
    ("sway", .obj [("amp", .rat m.sway_amp), ("freq", .rat m.sway_freq)]),
    ("spin", .obj [("deg_per_sec", .rat m.spin_deg_per_sec)]),
    ("gravity", .rat m.gravity),
    ("glide", .obj [("lift", .rat m.glide_lift)])]

/-- `AccumulationSettings` (src/agents/schema.py, lines 170-187). -/
structure AccumulationSettings where
  enabled : Bool
  mode : String
  max_height_px : ℚ
  diffusion : ℚ
deriving DecidableEq

/-- Construction of `AccumulationSettings`: height and diffusion clamps. -/
def AccumulationSettings.make (enabled : Bool) (mode : String)
    (max_height_px diffusion : ℚ) : AccumulationSettings :=
  { enabled := enabled, mode := mode,
    max_height_px := clampQ max_height_px (some 0) (some MAX_ACCUMULATION_HEIGHT),
    diffusion := clampQ diffusion (some 0) (some 1) }

/-- `AccumulationSettings.to_dict`. -/
def AccumulationSettings.to_dict (a : AccumulationSettings) : JVal :=
  .obj [("enabled", .bool a.enabled), ("mode", .str a.mode),
    ("max_height_px", .rat a.max_height_px), ("diffusion", .rat a.diffusion)]

/-- `ObstacleSettings` (src/agents/schema.py, lines 190-200). -/
structure ObstacleSettings where
  collide_mask : String
  stickiness : ℚ
deriving DecidableEq

/-- Construction of `ObstacleSettings`: the mask path must live under the
runtime namespace; stickiness is clamped into [0, 1]. -/
def ObstacleSettings.make (collide_mask : String) (stickiness : ℚ) :
    Except String ObstacleSettings := do
  let mask ← ensure_runtime_path collide_mask
  pure { collide_mask := mask, stickiness := clampQ stickiness (some 0) (some 1) }

/-- `ObstacleSettings.to_dict`. -/
def ObstacleSettings.to_dict (o : ObstacleSettings) : JVal :=
  .obj [("collide_mask", .str o.collide_mask), ("stickiness", .rat o.stickiness)]

/-- `BackgroundSettings` (src/agents/schema.py, lines 203-212). -/
structure BackgroundSettings where
  gradient : List String
  cycle_by_clock : Bool
deriving DecidableEq

/-- Construction of `BackgroundSettings`: the gradient goes through
`ensure_palette`. -/
def BackgroundSettings.make (gradient : List String) (cycle_by_clock : Bool) :
    Except String BackgroundSettings := do
  let g ← ensure_palette gradient
  pure { gradient := g, cycle_by_clock := cycle_by_clock }

/-- `BackgroundSettings.to_dict`. -/
def BackgroundSettings.to_dict (b : BackgroundSettings) : JVal :=
  .obj [("gradient", .arr (b.gradient.map .str)),
    ("cycle_by_clock", .bool b.cycle_by_clock)]

/-- `FXSettings` (src/agents/schema.py, lines 215-224).  The nested
background record is validated at its own construction; `__post_init__` only
clamps bloom. -/
structure FXSettings where
  bloom : ℚ
  background : BackgroundSettings
deriving DecidableEq

/-- Construction of `FXSettings`: bloom clamped into [0, 2]. -/
def FXSettings.make (bloom : ℚ) (background : BackgroundSettings) : FXSettings :=
  { bloom := clampQ bloom (some 0) (some 2), background := background }

/-- `FXSettings.to_dict`. -/
def FXSettings.to_dict (f : FXSettings) : JVal :=
  .obj [("bloom", .rat f.bloom), ("background", f.background.to_dict)]

/-- `TargetsSettings` (src/agents/schema.py, lines 227-237). -/
structure TargetsSettings where
  fps : ℤ
  internal_scale : ℚ
deriving DecidableEq

/-- Construction of `TargetsSettings`: fps into [1, 240], scale into
[0.1, 1.0]. -/
def TargetsSettings.make (fps : ℤ) (internal_scale : ℚ) : TargetsSettings :=
  { fps := clampInt fps 1 240,
    internal_scale := clampQ internal_scale (some 0.1) (some 1) }

/-- `TargetsSettings.to_dict`. -/
def TargetsSettings.to_dict (t : TargetsSettings) : JVal :=
  .obj [("fps", .int t.fps), ("internal_scale", .rat t.internal_scale)]

/-- `PresetSchema` (src/agents/schema.py, lines 240-280).  The dataclass has
no `__post_init__` of its own: every field, the free-text `notes` included,
is stored exactly as passed; nested records are validated by their own
constructors before being passed in.  `version` defaults to
`SCHEMA_VERSION`. -/
structure PresetSchema where
  version : String := SCHEMA_VERSION
  name : String
  emitter : EmitterSettings
  appearance : AppearanceSettings
  motion : MotionSettings
  accumulation : AccumulationSettings
  obstacle : ObstacleSettings
  fx : FXSettings
  targets : TargetsSettings
  notes : String
deriving DecidableEq

/-- `PresetSchema.to_dict` (lines 268-280). -/
def PresetSchema.to_dict (p : PresetSchema) : JVal :=
  .obj [("version", .str p.version), ("name", .str p.name),
    ("emitter", p.emitter.to_dict), ("appearance", p.appearance.to_dict),
    ("motion", p.motion.to_dict), ("accumulation", p.accumulation.to_dict),
    ("obstacle", p.obstacle.to_dict), ("fx", p.fx.to_dict),
    ("targets", p.targets.to_dict), ("notes", .str p.notes)]

/-- `ForceEvent` (src/agents/schema.py, lines 283-325): stored fields. -/
structure ForceEvent where
  t : ℚ
  type : String
  dir_deg : Option ℚ
  speed : Option ℚ
  dur : Option ℚ
  center : Option (List ℚ)
  radius : Option ℚ
  vortex : Option ℚ
deriving DecidableEq

/-- Construction of `ForceEvent` (`__post_init__`, lines 294-309): clamp `t`
to be ≥ 0 and each non-None optional into its fixed range; a non-None center
must be a pair, each component clamped into [0, 1]. -/
def ForceEvent.make (t : ℚ) (type : String) (dir_deg speed dur : Option ℚ)
    (center : Option (List ℚ)) (radius vortex : Option ℚ) :
    Except String ForceEvent := do
  let center ← match center with
    | none => pure none
    | some c =>
      if c.length ≠ 2 then Except.error "center must be a pair"
      else pure (some (c.map (fun x => clampQ x (some 0) (some 1))))
  pure
    { t := clampQ t (some 0) none,
      type := type,
      dir_deg := dir_deg.map (fun d => clampQ d (some 0) (some 360)),
      speed := speed.map (fun s => clampQ s (some 0) (some MAX_WIND_SPEED)),
      dur := dur.map (fun d => clampQ d (some 0) none),
      center := center,
      radius := radius.map (fun r => clampQ r (some 0) (some MAX_TORNADO_RADIUS)),
      vortex := vortex.map (fun v => clampQ v (some 0) (some MAX_VORTEX_SPEED)) }

/-- `ForceEvent.to_dict` (lines 311-325): mandatory `t`/`type` first, then
each optional exactly when non-None. -/
def ForceEvent.to_dict (e : ForceEvent) : JVal :=
  .obj ([("t", .rat e.t), ("type", .str e.type)]
    ++ (match e.dir_deg with | some d => [("dir_deg", .rat d)] | none => [])
    ++ (match e.speed with | some s => [("speed", .rat s)] | none => [])
    ++ (match e.dur with | some d => [("dur", .rat d)] | none => [])
    ++ (match e.center with
        | some c => [("center", .arr (c.map .rat))]
        | none => [])
    ++ (match e.radius with | some r => [("radius", .rat r)] | none => [])
    ++ (match e.vortex with | some v => [("vortex", .rat v)] | none => []))

/-- `ForcefieldSchema` (src/agents/schema.py, lines 328-338). -/
structure ForcefieldSchema where
  version : String := SCHEMA_VERSION
  timeline : List ForceEvent
  use_prebaked_texture : Bool
deriving DecidableEq

/-- `ForcefieldSchema.to_dict` (lines 333-338). -/
def ForcefieldSchema.to_dict (f : ForcefieldSchema) : JVal :=
  .obj [("version", .str f.version),
    ("timeline", .arr (f.timeline.map ForceEvent.to_dict)),
    ("texture", .obj [("use_prebaked", .bool f.use_prebaked_texture)])]

/-- `ClearRule` (src/agents/schema.py, lines 341-361).  The Python field
named `at` is a reserved word in Lean and is rendered `at_`. -/
structure ClearRule where
  trigger : String
  action : String
  at_ : Option String
  gte : Option ℚ
  radius_px : Option ℚ
deriving DecidableEq

/-- Construction of `ClearRule`: only a non-None `radius_px` is clamped. -/
def ClearRule.make (trigger action : String) (at_ : Option String)
    (gte : Option ℚ) (radius_px : Option ℚ) : ClearRule :=
  { trigger := trigger, action := action, at_ := at_, gte := gte,
    radius_px := radius_px.map (fun r => clampQ r (some 0) (some 4096)) }

/-- `ClearRule.to_dict` (lines 353-361). -/
def ClearRule.to_dict (c : ClearRule) : JVal :=
  .obj ([("trigger", .str c.trigger), ("action", .str c.action)]
    ++ (match c.at_ with | some a => [("at", .str a)] | none => [])
    ++ (match c.gte with | some g => [("gte", .rat g)] | none => [])
    ++ (match c.radius_px with | some r => [("radius_px", .rat r)] | none => []))

/-- `DrawOp` (src/agents/schema.py, lines 364-392): stored fields. -/
structure DrawOp where
  op : String
  pos : Option (List ℚ)
  radius : Option ℚ
  rect : Option (List ℚ)
  mode : String
deriving DecidableEq

/-- Construction of `DrawOp` (`__post_init__`, lines 372-382): a non-None pos
must be a pair and a non-None rect a quadruple, every component clamped into
[0, 1]; a non-None radius is clamped into [0, 1]. -/
def DrawOp.make (op : String) (pos : Option (List ℚ)) (radius : Option ℚ)
    (rect : Option (List ℚ)) (mode : String) : Except String DrawOp := do
  let pos ← match pos with
    | none => pure none
    | some p =>
      if p.length ≠ 2 then Except.error "pos must have length 2"
      else pure (some (p.map (fun x => clampQ x (some 0) (some 1))))
  let rect ← match rect with
    | none => pure none
    | some r =>
      if r.length ≠ 4 then Except.error "rect must have length 4"
      else pure (some (r.map (fun x => clampQ x (some 0) (some 1))))
  pure
    { op := op, pos := pos,
      radius := radius.map (fun r => clampQ r (some 0) (some 1)),
      rect := rect, mode := mode }

/-- `DrawOp.to_dict` (lines 384-392): `op` and `mode` always, the optionals
exactly when non-None. -/
def DrawOp.to_dict (d : DrawOp) : JVal :=
  .obj ([("op", .str d.op), ("mode", .str d.mode)]
    ++ (match d.pos with | some p => [("pos", .arr (p.map .rat))] | none => [])
    ++ (match d.radius with | some r => [("radius", .rat r)] | none => [])
    ++ (match d.rect with | some r => [("rect", .arr (r.map .rat))] | none => []))

/-- `ObstaclesSchema` (src/agents/schema.py, lines 395-410). -/
structure ObstaclesSchema where
  version : String := SCHEMA_VERSION
  clear_rules : List ClearRule
  draw_ops : List DrawOp
  mask_path : String
deriving DecidableEq

/-- Construction of `ObstaclesSchema`: the mask path is validated against the
runtime namespace. -/
def ObstaclesSchema.make (clear_rules : List ClearRule) (draw_ops : List DrawOp)
    (mask_path : String) : Except String ObstaclesSchema := do
  let mask ← ensure_runtime_path mask_path
  pure { clear_rules := clear_rules, draw_ops := draw_ops, mask_path := mask }

/-- `ObstaclesSchema.to_dict` (lines 404-410). -/
def ObstaclesSchema.to_dict (o : ObstaclesSchema) : JVal :=
  .obj [("version", .str o.version),
    ("clear_rules", .arr (o.clear_rules.map ClearRule.to_dict)),
    ("draw_ops", .arr (o.draw_ops.map DrawOp.to_dict)),
    ("mask", .str o.mask_path)]

/-- `SequenceTrack` (src/agents/schema.py, lines 413-423).  The `apply`
mapping is modelled as an insertion-ordered association list. -/
structure SequenceTrack where
  t : ℚ
  apply : List (String × String)
deriving DecidableEq

/-- Construction of `SequenceTrack`: `t` clamped to be ≥ 0, every value of
the `apply` mapping validated by `ensure_runtime_path`. -/
def SequenceTrack.make (t : ℚ) (apply : List (String × String)) :
    Except String SequenceTrack := do
  let ap ← apply.mapM (fun kv => do
    let v ← ensure_runtime_path kv.2
    pure (kv.1, v))
  pure { t := clampQ t (some 0) none, apply := ap }

/-- `SequenceTrack.to_dict`. -/
def SequenceTrack.to_dict (s : SequenceTrack) : JVal :=
  .obj [("t", .rat s.t),
    ("apply", .obj (s.apply.map (fun kv => (kv.1, .str kv.2))))]

/-- `SequenceSchema` (src/agents/schema.py, lines 426-436). -/
structure SequenceSchema where
  version : String := SCHEMA_VERSION
  tracks : List SequenceTrack
  loop : Bool
deriving DecidableEq

/-- `SequenceSchema.to_dict`. -/
def SequenceSchema.to_dict (s : SequenceSchema) : JVal :=
  .obj [("version", .str s.version),
    ("tracks", .arr (s.tracks.map SequenceTrack.to_dict)),
    ("loop", .bool s.loop)]

/-- `CaptureSettings` (src/agents/schema.py, lines 439-460): stored fields. -/
structure CaptureSettings where
  type : String
  w : ℤ
  h : ℤ
  fps : ℤ
  dur_sec : ℚ
deriving DecidableEq

/-- Construction of `CaptureSettings`: width/height into
[1, MAX_EXPORT_RESOLUTION], fps into [1, 240], duration into
[0, MAX_EXPORT_DURATION]. -/
def CaptureSettings.make (type : String) (w h fps : ℤ) (dur_sec : ℚ) :
    CaptureSettings :=
  { type := type,
    w := clampInt w 1 MAX_EXPORT_RESOLUTION,
    h := clampInt h 1 MAX_EXPORT_RESOLUTION,
    fps := clampInt fps 1 240,
    dur_sec := clampQ dur_sec (some 0) (some MAX_EXPORT_DUR) }

/-- `CaptureSettings.to_dict`. -/
def CaptureSettings.to_dict (c : CaptureSettings) : JVal :=
  .obj [("type", .str c.type), ("w", .int c.w), ("h", .int c.h),
    ("fps", .int c.fps), ("dur_sec", .rat c.dur_sec)]

/-- `ExporterSchema` (src/agents/schema.py, lines 463-484).  The opaque
watermark mapping is modelled as an association list of JSON values. -/
structure ExporterSchema where
  version : String := SCHEMA_VERSION
  capture : CaptureSettings
  watermark : Option (List (String × JVal))
  seed : Option ℤ

/-- Construction of `ExporterSchema` (`__post_init__`, lines 471-473): a
non-None seed goes through `int(clamp(float(seed), 0.0, 2**32 - 1))`, a
saturating clamp into the unsigned 32-bit range. -/
def ExporterSchema.make (capture : CaptureSettings)
    (watermark : Option (List (String × JVal))) (seed : Option ℤ) :
    ExporterSchema :=
  { capture := capture, watermark := watermark,
    seed := seed.map (fun s => clampInt s 0 (2 ^ 32 - 1)) }

/-- `ExporterSchema.to_dict` (lines 475-484). -/
def ExporterSchema.to_dict (e : ExporterSchema) : JVal :=
  .obj ([("version", .str e.version), ("capture", e.capture.to_dict)]
    ++ (match e.watermark with
        | some w => [("watermark", .obj w)]
        | none => [])
    ++ (match e.seed with | some s => [("seed", .int s)] | none => []))

/-- `SeasonalAdjust` (src/agents/schema.py, lines 487-493). -/
structure SeasonalAdjust where
  parameter : String
  values : List (String × JVal)

/-- `SeasonalAdjust.to_dict`. -/
def SeasonalAdjust.to_dict (s : SeasonalAdjust) : JVal :=
  .obj [("parameter", .str s.parameter), ("values", .obj s.values)]

/-- `TimekeeperSchema` (src/agents/schema.py, lines 496-506). -/
structure TimekeeperSchema where
  version : String := SCHEMA_VERSION
  region : String := "UTC"
  adjustments : List SeasonalAdjust

/-- `TimekeeperSchema.to_dict`. -/
def TimekeeperSchema.to_dict (t : TimekeeperSchema) : JVal :=
  .obj [("version", .str t.version), ("region", .str t.region),
    ("adjustments", .arr (t.adjustments.map SeasonalAdjust.to_dict))]

/-- `UIHintsSchema` (src/agents/schema.py, lines 509-519). -/
structure UIHintsSchema where
  version : String := SCHEMA_VERSION
  tips : List String
  recommended_presets : List String
deriving DecidableEq

/-- `UIHintsSchema.to_dict`. -/
def UIHintsSchema.to_dict (u : UIHintsSchema) : JVal :=
  .obj [("version", .str u.version),
    ("tips", .arr (u.tips.map .str)),
    ("recommended_presets", .arr (u.recommended_presets.map .str))]

/-- `AssetPackSchema` (src/agents/schema.py, lines 522-532). -/
structure AssetPackSchema where
  version : String := SCHEMA_VERSION
  required_assets : List String
  missing_assets : List String
deriving DecidableEq

/-- `AssetPackSchema.to_dict`. -/
def AssetPackSchema.to_dict (a : AssetPackSchema) : JVal :=
  .obj [("version", .str a.version),
    ("required_assets", .arr (a.required_assets.map .str)),
    ("missing_assets", .arr (a.missing_assets.map .str))]

/-- Case-insensitive-ready substring test: Python's `needle in haystack`. -/
def strContains (haystack needle : String) : Bool :=
  decide (needle.data <:+: haystack.data)

/-- Python's `str.lower`, character by character (the repository only feeds
it prompt text; `Char.toLower` matches `str.lower` on ASCII). -/
def strLower (s : String) : String :=
  String.mk (s.data.map Char.toLower)

/-- A character the slug regex `[^a-z0-9]+` leaves untouched. -/
def isSlugChar (c : Char) : Bool :=
  decide (('a' ≤ c ∧ c ≤ 'z') ∨ ('0' ≤ c ∧ c ≤ '9'))

/-- Collapse every run of consecutive underscores to a single underscore;
together with the character map below this models replacing each maximal run
of non-slug characters by one `"_"` (the behaviour of
`re.sub(r"[^a-z0-9]+", "_", ...)`, whose replacement never equals a kept
character). -/
def collapseUnderscores : List Char → List Char
  | [] => []
  | [c] => [c]
  | c1 :: c2 :: rest =>
    if c1 = '_' ∧ c2 = '_' then collapseUnderscores (c2 :: rest)
    else c1 :: collapseUnderscores (c2 :: rest)

/-- Python's `str.strip("_")`: drop underscores from both ends. -/
def stripUnderscores (l : List Char) : List Char :=
  ((l.dropWhile (· == '_')).reverse.dropWhile (· == '_')).reverse

/-- `PresetAgent._slugify` (src/agents/preset_agent.py, lines 52-55):
lowercase, collapse each run of non-`[a-z0-9]` characters to one underscore,
strip outer underscores, and fall back to `"preset"` when empty. -/
def slugify (text : String) : String :=
  let replaced := (strLower text).data.map (fun c => if isSlugChar c then c else '_')
  let slug := String.mk (stripUnderscores (collapseUnderscores replaced))
  if slug = "" then "preset" else slug

/-- `PresetConstraints` (src/agents/preset_agent.py, lines 26-30). -/
structure PresetConstraints where
  max_particles : ℤ := MAX_PARTICLE_RATE
  target_fps : ℤ := 60
  internal_scale : ℚ := 0.75
deriving DecidableEq

/-- `PresetRequest` (src/agents/preset_agent.py, lines 33-43).  The burst
interval is a caller-supplied float, hence `PyNum`. -/
structure PresetRequest where
  prompt : String
  palette : Option (List String) := none
  emitter_type : String := "generic"
  base_name : String := "custom"
  desired_rate : ℤ := 2000
  burst_interval : Option PyNum := none
  burst_count : Option ℤ := none
  sprite : String := "res://runtime/preset_sprite.png"
  notes : Option String := none
deriving DecidableEq

/-- `PresetAgent` holds its constraints (src/agents/preset_agent.py,
lines 46-50; a `None` argument is replaced by default constraints at the
call site). -/
structure PresetAgent where
  constraints : PresetConstraints
deriving DecidableEq

/-- `PresetAgent._choose_motion` (src/agents/preset_agent.py, lines 57-64):
keyword containment against the lowercased prompt, storm/strong first, then
calm/gentle, else the default profile. -/
def PresetAgent.chooseMotion (prompt : String) : MotionSettings :=
  let prompt_lower := strLower prompt
  if strContains prompt_lower "storm" || strContains prompt_lower "strong" then
    MotionSettings.make 0.05 50 0.9 120 320 0.4
  else if strContains prompt_lower "calm" || strContains prompt_lower "gentle" then
    MotionSettings.make 0.18 18 0.4 40 120 0.2
  else
    MotionSettings.make 0.12 30 0.6 90 240 0.3

/-- `PresetAgent._appearance` (src/agents/preset_agent.py, lines 66-71): a
falsy palette (None or empty list) is replaced by the default one. -/
def PresetAgent.appearance (palette : Option (List String)) (sprite : String) :
    Except String AppearanceSettings :=
  let pal := match palette with
    | none => ["#ffffff", "#dddddd", "#bbbbbb"]
    | some [] => ["#ffffff", "#dddddd", "#bbbbbb"]
    | some p => p
  AppearanceSettings.make pal (SizeRange.make 6 14) sprite

/-- Python's `request.notes or request.prompt`: the notes string when it is
truthy (non-None and non-empty), the prompt otherwise. -/
def notesOrPrompt (notes : Option String) (prompt : String) : String :=
  match notes with
  | some n => if n = "" then prompt else n
  | none => prompt

/-- `PresetAgent.generate` (src/agents/preset_agent.py, lines 73-102).
The slug comes from `base_name or prompt`; the desired rate is clamped into
[1, max_particles] before the emitter clamps it again; a burst is built only
when both burst fields are non-None; notes fall back to the prompt and are
truncated to the first 80 characters (`[:80]`). -/
def PresetAgent.generate (agent : PresetAgent) (request : PresetRequest) :
    Except String PresetSchema := do
  let slug := slugify (if request.base_name = "" then request.prompt
    else request.base_name)
  let emitter_rate := clampInt request.desired_rate 1
    agent.constraints.max_particles
  let burst ← match request.burst_interval, request.burst_count with
    | some itv, some cnt => do
      let b ← BurstSettings.make itv cnt
      pure (some b)
    | _, _ => pure none
  let emitter := EmitterSettings.make request.emitter_type emitter_rate
    (SpawnBand.make 0.05 0.02) burst none
  let appearance ← PresetAgent.appearance request.palette request.sprite
  let motion := PresetAgent.chooseMotion request.prompt
  let accumulation := AccumulationSettings.make true "heightmap" 180 0.08
  let obstacle ← ObstacleSettings.make "res://runtime/obstacles_mask.png" 0.2
  let bg ← BackgroundSettings.make ["#0b1120", "#1e293b"] false
  let fx := FXSettings.make 0.2 bg
  let targets := TargetsSettings.make agent.constraints.target_fps
    agent.constraints.internal_scale
  let notes := String.mk ((notesOrPrompt request.notes request.prompt).data.take 80)
  pure
    { name := slug, emitter := emitter, appearance := appearance,
      motion := motion, accumulation := accumulation, obstacle := obstacle,
      fx := fx, targets := targets, notes := notes }

/-- `ForceEventSpec` (src/agents/forcefield_agent.py, lines 10-19). -/
structure ForceEventSpec where
  t : ℚ
  type : String
  dir_deg : Option ℚ := none
  speed : Option ℚ := none
  dur : Option ℚ := none
  center : Option (List ℚ) := none
  radius : Option ℚ := none
  vortex : Option ℚ := none
deriving DecidableEq

/-- `ForcefieldConstraints` (src/agents/forcefield_agent.py, lines 22-24). -/
structure ForcefieldConstraints where
  max_speed : ℚ := MAX_WIND_SPEED
deriving DecidableEq

/-- `ForcefieldRequest` (src/agents/forcefield_agent.py, lines 27-31). -/
structure ForcefieldRequest where
  prompt : String
  events : List ForceEventSpec
  use_prebaked_texture : Bool := false
deriving DecidableEq

/-- `ForceFieldAgent` holds its constraints (lines 34-38). -/
structure ForceFieldAgent where
  constraints : ForcefieldConstraints
deriving DecidableEq

/-- `ForceFieldAgent._apply_constraints` (src/agents/forcefield_agent.py,
lines 40-56): a non-None speed is clamped into [0, max_speed] and a non-None
vortex into [0, max_speed * 1.25]; every other field is handed to the
`ForceEvent` constructor unchanged. -/
def ForceFieldAgent.applyConstraints (agent : ForceFieldAgent)
    (event : ForceEventSpec) : Except String ForceEvent :=
  let speed := event.speed.map (fun s =>
    clampQ s (some 0) (some agent.constraints.max_speed))
  let vortex := event.vortex.map (fun v =>
    clampQ v (some 0) (some (agent.constraints.max_speed * 1.25)))
  ForceEvent.make event.t event.type event.dir_deg speed event.dur
    event.center event.radius vortex

/-- `ForceFieldAgent.generate` (lines 58-60). -/
def ForceFieldAgent.generate (agent : ForceFieldAgent)
    (request : ForcefieldRequest) : Except String ForcefieldSchema := do
  let events ← request.events.mapM agent.applyConstraints
  pure { timeline := events, use_prebaked_texture := request.use_prebaked_texture }

/-- `AssetPackRequest` (src/agents/assetpack_agent.py, lines 10-13). -/
structure AssetPackRequest where
  required_assets : List String
  available_assets : List String
deriving DecidableEq

/-- `list(dict.fromkeys(...))`: de-duplicate, keeping the first occurrence of
each element, in order. -/
def dedupFirst : List String → List String
  | [] => []
  | x :: xs => x :: (dedupFirst xs).filter (fun y => y != x)

/-- `AssetPackAgent.generate` (src/agents/assetpack_agent.py, lines 19-23):
de-duplicate the required assets preserving first occurrences, then list
those absent from the availability set, in the same order. -/
def AssetPackAgent.generate (request : AssetPackRequest) : AssetPackSchema :=
  let required := dedupFirst request.required_assets
  let missing := required.filter (fun asset =>
    !(request.available_assets.contains asset))
  { required_assets := required, missing_assets := missing }

theorem le_clampQ (v lo : ℚ) (hi : Option ℚ) (h : ∀ b ∈ hi, lo ≤ b) :
    lo ≤ clampQ v (some lo) hi := by
  cases hi with
  | none => simp only [clampQ]; split_ifs <;> linarith
  | some b =>
    have hb := h b (by simp)
    simp only [clampQ]
    split_ifs <;> linarith

theorem clampQ_le (v lo hi : ℚ) (h : lo ≤ hi) :
    clampQ v (some lo) (some hi) ≤ hi := by
  simp only [clampQ]
  split_ifs <;> linarith

theorem clampQ_le_self (v lo : ℚ) (hi : Option ℚ) (h : lo ≤ v) :
    clampQ v (some lo) hi ≤ v := by
  cases hi <;> (simp only [clampQ]; split_ifs <;> linarith)

theorem clampQ_eq_of_mem (v lo hi : ℚ) (h1 : lo ≤ v) (h2 : v ≤ hi) :
    clampQ v (some lo) (some hi) = v := by
  simp only [clampQ]
  split_ifs <;> linarith

theorem clampInt_cases (n lo hi : ℤ) (h : lo ≤ hi) :
    (n < lo → clampInt n lo hi = lo) ∧
    (hi < n → clampInt n lo hi = hi) ∧
    (lo ≤ n → n ≤ hi → clampInt n lo hi = n) := by
  simp only [clampInt]
  refine ⟨fun h1 => ?_, fun h1 => ?_, fun h1 h2 => ?_⟩ <;>
    split_ifs <;> omega

theorem clampInt_mem (n lo hi : ℤ) (h : lo ≤ hi) :
    lo ≤ clampInt n lo hi ∧ clampInt n lo hi ≤ hi := by
  simp only [clampInt]
  split_ifs <;> omega

theorem clampInt_le_self (n lo hi : ℤ) (h : lo ≤ n) :
    clampInt n lo hi ≤ n := by
  simp only [clampInt]
  split_ifs <;> omega

/-- C3: on a spec with a requested speed, the forcefield agent emits an event
whose speed lies in [0, max_speed] and also within the schema range
[0, MAX_WIND_SPEED]; a requested vortex lands in [0, max_speed * 1.25] and
within [0, MAX_VORTEX_SPEED]; every other field reaches the `ForceEvent`
constructor unchanged, receiving only the schema's own clamps. -/
theorem forcefield_agent_clamps_speed_and_vortex
    (agent : ForceFieldAgent) (spec : ForceEventSpec) (ev : ForceEvent)
    (hms : 0 ≤ agent.constraints.max_speed)
    (h : agent.applyConstraints spec = .ok ev) :
    (∀ s, spec.speed = some s → ∃ v, ev.speed = some v ∧
      0 ≤ v ∧ v ≤ agent.constraints.max_speed ∧ v ≤ MAX_WIND_SPEED) ∧
    (∀ w, spec.vortex = some w → ∃ u, ev.vortex = some u ∧
      0 ≤ u ∧ u ≤ agent.constraints.max_speed * 1.25 ∧ u ≤ MAX_VORTEX_SPEED) ∧
    (spec.speed = none → ev.speed = none) ∧
    (spec.vortex = none → ev.vortex = none) ∧
    ev.type = spec.type ∧
    ev.t = clampQ spec.t (some 0) none ∧
    ev.dir_deg = spec.dir_deg.map (fun d => clampQ d (some 0) (some 360)) ∧
    ev.dur = spec.dur.map (fun d => clampQ d (some 0) none) ∧
    ev.radius = spec.radius.map (fun r =>
      clampQ r (some 0) (some MAX_TORNADO_RADIUS)) ∧
    (spec.center = none → ev.center = none) := by
  have hspeed : ∀ s : ℚ,
      0 ≤ clampQ (clampQ s (some 0) (some agent.constraints.max_speed))
          (some 0) (some MAX_WIND_SPEED) ∧
      clampQ (clampQ s (some 0) (some agent.constraints.max_speed))
          (some 0) (some MAX_WIND_SPEED) ≤ agent.constraints.max_speed ∧
      clampQ (clampQ s (some 0) (some agent.constraints.max_speed))
          (some 0) (some MAX_WIND_SPEED) ≤ MAX_WIND_SPEED := by
    intro s
    have h1 : 0 ≤ clampQ s (some 0) (some agent.constraints.max_speed) :=
      le_clampQ s 0 _ (by intro b hb; simp at hb; subst hb; exact hms)
    have h2 : clampQ s (some 0) (some agent.constraints.max_speed) ≤
        agent.constraints.max_speed := clampQ_le s 0 _ hms
    refine ⟨le_clampQ _ 0 _ ?_, le_trans (clampQ_le_self _ 0 _ h1) h2,
      clampQ_le _ 0 _ (by norm_num [MAX_WIND_SPEED])⟩
    intro b hb
    simp at hb
    subst hb
    norm_num [MAX_WIND_SPEED]
  have hvmul : 0 ≤ agent.constraints.max_speed * 1.25 :=
    mul_nonneg hms (by norm_num)
  have hvortex : ∀ w : ℚ,
      0 ≤ clampQ (clampQ w (some 0) (some (agent.constraints.max_speed * 1.25)))
          (some 0) (some MAX_VORTEX_SPEED) ∧
      clampQ (clampQ w (some 0) (some (agent.constraints.max_speed * 1.25)))
          (some 0) (some MAX_VORTEX_SPEED) ≤
        agent.constraints.max_speed * 1.25 ∧
      clampQ (clampQ w (some 0) (some (agent.constraints.max_speed * 1.25)))
          (some 0) (some MAX_VORTEX_SPEED) ≤ MAX_VORTEX_SPEED := by
    intro w
    have h1 : 0 ≤ clampQ w (some 0) (some (agent.constraints.max_speed * 1.25)) :=
      le_clampQ w 0 _ (by intro b hb; simp at hb; subst hb; linarith)
    have h2 : clampQ w (some 0) (some (agent.constraints.max_speed * 1.25)) ≤
        agent.constraints.max_speed * 1.25 := clampQ_le w 0 _ hvmul
    refine ⟨le_clampQ _ 0 _ ?_, le_trans (clampQ_le_self _ 0 _ h1) h2,
      clampQ_le _ 0 _ (by norm_num [MAX_VORTEX_SPEED])⟩
    intro b hb
    simp at hb
    subst hb
    norm_num [MAX_VORTEX_SPEED]
  rcases hc : spec.center with _ | c
  · simp only [ForceFieldAgent.applyConstraints, ForceEvent.make, hc, bind,
      Except.bind, pure, Except.pure, Except.ok.injEq] at h
    subst h
    refine ⟨?_, ?_, ?_, ?_, rfl, rfl, rfl, rfl, rfl, fun _ => rfl⟩
    · intro s hs
      simp only [hs, Option.map_some]
      exact ⟨_, rfl, (hspeed s).1, (hspeed s).2.1, (hspeed s).2.2⟩
    · intro w hw
      simp only [hw, Option.map_some]
      exact ⟨_, rfl, (hvortex w).1, (hvortex w).2.1, (hvortex w).2.2⟩
    · intro hs
      simp [hs]
    · intro hw
      simp [hw]
  · by_cases hl : c.length = 2
    · simp only [ForceFieldAgent.applyConstraints, ForceEvent.make, hc, hl,
        bind, Except.bind, pure, Except.pure, if_neg, ne_eq,
        not_true_eq_false, not_false_eq_true, if_false, if_true,
        Except.ok.injEq, reduceIte] at h
      subst h
      refine ⟨?_, ?_, ?_, ?_, rfl, rfl, rfl, rfl, rfl, fun hcn => ?_⟩
      · intro s hs
        simp only [hs, Option.map_some]
        exact ⟨_, rfl, (hspeed s).1, (hspeed s).2.1, (hspeed s).2.2⟩
      · intro w hw
        simp only [hw, Option.map_some]
        exact ⟨_, rfl, (hvortex w).1, (hvortex w).2.1, (hvortex w).2.2⟩
      · intro hs
        simp [hs]
      · intro hw
        simp [hw]
      · exact Option.noConfusion hcn
    · simp only [ForceFieldAgent.applyConstraints, ForceEvent.make, hc, hl,
        bind, Except.bind, ne_eq, not_false_eq_true, reduceIte] at h
      exact Except.noConfusion h

theorem except_bind_ok {ε α β : Type} {x : Except ε α} {f : α → Except ε β}
    {b : β} (h : x >>= f = .ok b) : ∃ a, x = .ok a ∧ f a = .ok b := by
  cases x with
  | error e =>
    simp only [bind, Except.bind] at h
    exact Except.noConfusion h
  | ok a => exact ⟨a, rfl, by simpa only [bind, Except.bind] using h⟩

/-- The fields of a successfully generated preset that the claims examine:
the emitter rate is the agent clamp into [1, max_particles] followed by the
schema clamp into [0, MAX_PARTICLE_RATE]; the notes are the first 80
characters of `notes or prompt`; a burst is stored exactly when both burst
request fields were supplied. -/
theorem generate_ok_fields (agent : PresetAgent) (req : PresetRequest)
    (p : PresetSchema) (h : agent.generate req = .ok p) :
    p.version = SCHEMA_VERSION ∧
    p.emitter.rate_per_sec =
      clampInt (clampInt req.desired_rate 1 agent.constraints.max_particles)
        0 MAX_PARTICLE_RATE ∧
    p.notes = String.mk ((notesOrPrompt req.notes req.prompt).data.take 80) ∧
    p.emitter.burst.isSome =
      (req.burst_interval.isSome && req.burst_count.isSome) := by
  simp only [PresetAgent.generate] at h
  rcases hbi : req.burst_interval with _ | itv <;>
    rcases hbc : req.burst_count with _ | cnt <;>
    rw [hbi, hbc] at h
  · obtain ⟨y, hy, h⟩ := except_bind_ok h
    obtain ⟨app, -, h⟩ := except_bind_ok h
    obtain ⟨obs, -, h⟩ := except_bind_ok h
    obtain ⟨bg, -, h⟩ := except_bind_ok h
    have hp := Except.ok.inj h
    subst hp
    have hyv := Except.ok.inj hy
    subst hyv
    exact ⟨rfl, rfl, rfl, by simp [hbi, hbc, EmitterSettings.make]⟩
  · obtain ⟨y, hy, h⟩ := except_bind_ok h
    obtain ⟨app, -, h⟩ := except_bind_ok h
    obtain ⟨obs, -, h⟩ := except_bind_ok h
    obtain ⟨bg, -, h⟩ := except_bind_ok h
    have hp := Except.ok.inj h
    subst hp
    have hyv := Except.ok.inj hy
    subst hyv
    exact ⟨rfl, rfl, rfl, by simp [hbi, hbc, EmitterSettings.make]⟩
  · obtain ⟨y, hy, h⟩ := except_bind_ok h
    obtain ⟨app, -, h⟩ := except_bind_ok h
    obtain ⟨obs, -, h⟩ := except_bind_ok h
    obtain ⟨bg, -, h⟩ := except_bind_ok h
    have hp := Except.ok.inj h
    subst hp
    have hyv := Except.ok.inj hy
    subst hyv
    exact ⟨rfl, rfl, rfl, by simp [hbi, hbc, EmitterSettings.make]⟩
  · obtain ⟨b, -, h⟩ := except_bind_ok h
    obtain ⟨y, hy, h⟩ := except_bind_ok h
    obtain ⟨app, -, h⟩ := except_bind_ok h
    obtain ⟨obs, -, h⟩ := except_bind_ok h
    obtain ⟨bg, -, h⟩ := except_bind_ok h
    have hp := Except.ok.inj h
    subst hp
    have hyv := Except.ok.inj hy
    subst hyv
    exact ⟨rfl, rfl, rfl, by simp [hbi, hbc, EmitterSettings.make]⟩

/-- C4: a generated preset's emitter rate lies in [1, max_particles]
(whenever that interval is non-empty). -/
theorem preset_agent_rate_in_bounds
    (agent : PresetAgent) (req : PresetRequest) (p : PresetSchema)
    (hmp : 1 ≤ agent.constraints.max_particles)
    (h : agent.generate req = .ok p) :
    1 ≤ p.emitter.rate_per_sec ∧
    p.emitter.rate_per_sec ≤ agent.constraints.max_particles := by
  obtain ⟨-, hrate, -, -⟩ := generate_ok_fields agent req p h
  rw [hrate]
  obtain ⟨ha, hb⟩ :=
    clampInt_mem req.desired_rate 1 agent.constraints.max_particles hmp
  simp only [clampInt, MAX_PARTICLE_RATE] at *
  split_ifs at * <;> omega

/-- Witness for C4: with `max_particles = 1000` and a requested rate of
`MAX_PARTICLE_RATE * 2 = 200000`, generation succeeds and the emitter rate
lands in [1, 1000]. -/
theorem preset_agent_rate_in_bounds_witness :
    ∃ p, PresetAgent.generate ⟨⟨1000, 60, 0.75⟩⟩
        { prompt := "storm of petals", base_name := "Storm",
          desired_rate := 200000 } = .ok p ∧
      1 ≤ p.emitter.rate_per_sec ∧ p.emitter.rate_per_sec ≤ 1000 := by
  obtain ⟨p, hp⟩ : ∃ p, PresetAgent.generate ⟨⟨1000, 60, 0.75⟩⟩
      { prompt := "storm of petals", base_name := "Storm",
        desired_rate := 200000 } = .ok p := ⟨_, rfl⟩
  exact ⟨p, hp, preset_agent_rate_in_bounds ⟨⟨1000, 60, 0.75⟩⟩ _ p
    (by norm_num) hp⟩

set_option maxHeartbeats 1600000 in
/-- C5: every top-level document's `to_dict` carries the stored version
string (the dataclass default `SCHEMA_VERSION = "1.0"`, which no agent ever
overrides), and each optional field — burst/random_seed of the emitter,
dir_deg/speed/dur/center/radius/vortex of a force event, at/gte/radius_px of
a clear rule, pos/radius/rect of a draw op, watermark/seed of the exporter —
appears in the serialized output exactly when its source value is
non-None. -/
theorem to_dict_version_and_optional_fields :
    (∀ p : PresetSchema, p.version = "1.0" →
      jGet p.to_dict "version" = some (.str "1.0")) ∧
    (∀ f : ForcefieldSchema, f.version = "1.0" →
      jGet f.to_dict "version" = some (.str "1.0")) ∧
    (∀ o : ObstaclesSchema, o.version = "1.0" →
      jGet o.to_dict "version" = some (.str "1.0")) ∧
    (∀ s : SequenceSchema, s.version = "1.0" →
      jGet s.to_dict "version" = some (.str "1.0")) ∧
    (∀ e : ExporterSchema, e.version = "1.0" →
      jGet e.to_dict "version" = some (.str "1.0")) ∧
    (∀ t : TimekeeperSchema, t.version = "1.0" →
      jGet t.to_dict "version" = some (.str "1.0")) ∧
    (∀ u : UIHintsSchema, u.version = "1.0" →
      jGet u.to_dict "version" = some (.str "1.0")) ∧
    (∀ a : AssetPackSchema, a.version = "1.0" →
      jGet a.to_dict "version" = some (.str "1.0")) ∧
    (∀ e : EmitterSettings,
      (jGet e.to_dict "burst").isSome = e.burst.isSome ∧
      (jGet e.to_dict "random_seed").isSome = e.random_seed.isSome) ∧
    (∀ ev : ForceEvent,
      (jGet ev.to_dict "dir_deg").isSome = ev.dir_deg.isSome ∧
      (jGet ev.to_dict "speed").isSome = ev.speed.isSome ∧
      (jGet ev.to_dict "dur").isSome = ev.dur.isSome ∧
      (jGet ev.to_dict "center").isSome = ev.center.isSome ∧
      (jGet ev.to_dict "radius").isSome = ev.radius.isSome ∧
      (jGet ev.to_dict "vortex").isSome = ev.vortex.isSome) ∧
    (∀ c : ClearRule,
      (jGet c.to_dict "at").isSome = c.at_.isSome ∧
      (jGet c.to_dict "gte").isSome = c.gte.isSome ∧
      (jGet c.to_dict "radius_px").isSome = c.radius_px.isSome) ∧
    (∀ d : DrawOp,
      (jGet d.to_dict "pos").isSome = d.pos.isSome ∧
      (jGet d.to_dict "radius").isSome = d.radius.isSome ∧
      (jGet d.to_dict "rect").isSome = d.rect.isSome) ∧
    (∀ e : ExporterSchema,
      (jGet e.to_dict "watermark").isSome = e.watermark.isSome ∧
      (jGet e.to_dict "seed").isSome = e.seed.isSome) ∧
    (∀ (agent : PresetAgent) (req : PresetRequest) (p : PresetSchema),
      agent.generate req = .ok p →
      jGet p.to_dict "version" = some (.str "1.0")) ∧
    (∀ (agent : ForceFieldAgent) (req : ForcefieldRequest)
      (f : ForcefieldSchema), agent.generate req = .ok f →
      jGet f.to_dict "version" = some (.str "1.0")) ∧
    (∀ req : AssetPackRequest,
      jGet (AssetPackAgent.generate req).to_dict "version" =
        some (.str "1.0")) := by
  refine ⟨?_, ?_, ?_, ?_, ?_, ?_, ?_, ?_, ?_, ?_, ?_, ?_, ?_, ?_, ?_, ?_⟩
  · intro p h
    show some (JVal.str p.version) = some (JVal.str "1.0")
    rw [h]
  · intro f h
    show some (JVal.str f.version) = some (JVal.str "1.0")
    rw [h]
  · intro o h
    show some (JVal.str o.version) = some (JVal.str "1.0")
    rw [h]
  · intro s h
    show some (JVal.str s.version) = some (JVal.str "1.0")
    rw [h]
  · intro e h
    show some (JVal.str e.version) = some (JVal.str "1.0")
    rw [h]
  · intro t h
    show some (JVal.str t.version) = some (JVal.str "1.0")
    rw [h]
  · intro u h
    show some (JVal.str u.version) = some (JVal.str "1.0")
    rw [h]
  · intro a h
    show some (JVal.str a.version) = some (JVal.str "1.0")
    rw [h]
  · intro e
    obtain ⟨ty, r, sb, b, sd⟩ := e
    cases b <;> cases sd <;> exact ⟨rfl, rfl⟩
  · intro ev
    obtain ⟨t, ty, d1, s1, u1, c1, r1, v1⟩ := ev
    cases d1 <;> cases s1 <;> cases u1 <;> cases c1 <;> cases r1 <;>
      cases v1 <;> exact ⟨rfl, rfl, rfl, rfl, rfl, rfl⟩
  · intro c
    obtain ⟨tr, ac, a1, g1, r1⟩ := c
    cases a1 <;> cases g1 <;> cases r1 <;> exact ⟨rfl, rfl, rfl⟩
  · intro d
    obtain ⟨op, p1, r1, re1, mo⟩ := d
    cases p1 <;> cases r1 <;> cases re1 <;> exact ⟨rfl, rfl, rfl⟩
  · intro e
    obtain ⟨v, cap, w1, s1⟩ := e
    cases w1 <;> cases s1 <;> exact ⟨rfl, rfl⟩
  · intro agent req p h
    obtain ⟨hv, -, -, -⟩ := generate_ok_fields agent req p h
    show some (JVal.str p.version) = some (JVal.str "1.0")
    rw [hv]
    rfl
  · intro agent req f h
    simp only [ForceFieldAgent.generate] at h
    obtain ⟨evts, -, h2⟩ := except_bind_ok h
    have hp := Except.ok.inj h2
    subst hp
    rfl
  · intro req
    rfl

/-- Witness for C5 at a concrete (validly constructed) preset and exporter:
the serialized version is "1.0", an absent watermark is omitted and a present
seed is emitted. -/
theorem to_dict_version_and_optional_fields_witness :
    jGet (PresetSchema.to_dict
      { version := "1.0", name := "default",
        emitter := EmitterSettings.make "generic" 10 (SpawnBand.make 0 1)
          none none,
        appearance :=
          { palette := ["#ffffff"], size_px := SizeRange.make 1 1,
            sprite := "res://runtime/default.png" },
        motion := MotionSettings.make 0.1 10 0.5 0 0 0,
        accumulation := AccumulationSettings.make true "heightmap" 32 0.1,
        obstacle :=
          { collide_mask := "res://runtime/obstacles_mask.png",
            stickiness := clampQ 0 (some 0) (some 1) },
        fx := FXSettings.make 0
          { gradient := ["#000000", "#000000"], cycle_by_clock := false },
        targets := TargetsSettings.make 60 1, notes := "" }) "version" =
      some (.str "1.0") ∧
    (jGet (ExporterSchema.to_dict
      (ExporterSchema.make (CaptureSettings.make "video" 1920 1080 60 10)
        none (some 7))) "watermark").isSome = false ∧
    (jGet (ExporterSchema.to_dict
      (ExporterSchema.make (CaptureSettings.make "video" 1920 1080 60 10)
        none (some 7))) "seed").isSome = true :=
  ⟨to_dict_version_and_optional_fields.1 _ rfl,
    (to_dict_version_and_optional_fields.2.2.2.2.2.2.2.2.2.2.2.2.1 _).1,
    (to_dict_version_and_optional_fields.2.2.2.2.2.2.2.2.2.2.2.2.1 _).2⟩

/-- C6 counterexample: `PresetSchema` has no truncation of its own — a
record constructed directly with an 81-character notes string stores all 81
characters, so it is not the schema constructor that enforces the 80-char
bound. -/
theorem preset_schema_stores_long_notes_verbatim :
    ¬ (PresetSchema.mk "1.0" "n"
        (EmitterSettings.make "generic" 10 (SpawnBand.make 0 1) none none)
        { palette := ["#ffffff"], size_px := SizeRange.make 1 1,
          sprite := "res://runtime/default.png" }
        (MotionSettings.make 0.1 10 0.5 0 0 0)
        (AccumulationSettings.make true "heightmap" 32 0.1)
        { collide_mask := "res://runtime/obstacles_mask.png",
          stickiness := clampQ 0 (some 0) (some 1) }
        (FXSettings.make 0
          { gradient := ["#000000", "#000000"], cycle_by_clock := false })
        (TargetsSettings.make 60 1)
        (String.mk (List.replicate 81 'a'))).notes.length ≤ 80 := by
  decide

/-- C6 (amended): the 80-character notes bound is enforced by `PresetAgent`,
not by the `PresetSchema` constructor: every preset produced by
`PresetAgent.generate` stores as notes the first 80 characters of the
request notes, falling back to the prompt when the notes are None or empty,
while `PresetSchema` itself stores whatever notes value it receives. -/
theorem preset_agent_truncates_notes
    (agent : PresetAgent) (req : PresetRequest) (p : PresetSchema)
    (h : agent.generate req = .ok p) :
    p.notes.length ≤ 80 ∧
    p.notes = String.mk ((notesOrPrompt req.notes req.prompt).data.take 80) ∧
    (req.notes = none → p.notes = String.mk (req.prompt.data.take 80)) ∧
    (req.notes = some "" → p.notes = String.mk (req.prompt.data.take 80)) ∧
    (∀ n, req.notes = some n → n ≠ "" →
      p.notes = String.mk (n.data.take 80)) := by
  obtain ⟨-, -, hnotes, -⟩ := generate_ok_fields agent req p h
  refine ⟨?_, hnotes, ?_, ?_, ?_⟩
  · rw [hnotes]
    show ((notesOrPrompt req.notes req.prompt).data.take 80).length ≤ 80
    rw [List.length_take]
    exact min_le_left _ _
  · intro hn
    rw [hnotes, hn]
    rfl
  · intro hn
    rw [hnotes, hn]
    simp [notesOrPrompt]
  · intro n hn hne
    rw [hnotes, hn]
    simp [notesOrPrompt, hne]

/-- Witness for C6 (amended): a request carrying 100-character notes yields a
preset whose stored notes have length at most 80. -/
theorem preset_agent_truncates_notes_witness :
    ∃ p, PresetAgent.generate ⟨⟨100000, 60, 0.75⟩⟩
        { prompt := "calm",
          notes := some (String.mk (List.replicate 100 'x')) } = .ok p ∧
      p.notes.length ≤ 80 := by
  obtain ⟨p, hp⟩ : ∃ p, PresetAgent.generate ⟨⟨100000, 60, 0.75⟩⟩
      { prompt := "calm",
        notes := some (String.mk (List.replicate 100 'x')) } = .ok p := ⟨_, rfl⟩
  exact ⟨p, hp, (preset_agent_truncates_notes _ _ p hp).1⟩

/-- C7: `ensure_palette` fails exactly when every entry is empty (falsy), and
otherwise returns precisely the non-empty entries in their original order;
the same failure surfaces unchanged from the palette validation of
`AppearanceSettings` and the gradient validation of `BackgroundSettings`. -/
theorem ensure_palette_filters_and_rejects_all_empty (palette : List String) :
    ((∃ e, ensure_palette palette = .error e) ↔ ∀ c ∈ palette, c = "") ∧
    ((∃ c ∈ palette, c ≠ "") →
      ensure_palette palette = .ok (palette.filter (fun c => c != ""))) ∧
    (∀ l, ensure_palette palette = .ok l →
      l.Sublist palette ∧ l ≠ [] ∧ (∀ c, c ∈ l ↔ c ∈ palette ∧ c ≠ "")) ∧
    (∀ size sprite, (∀ c ∈ palette, c = "") →
      AppearanceSettings.make palette size sprite =
        .error "palette must contain at least one color") ∧
    (∀ cyc, (∀ c ∈ palette, c = "") →
      BackgroundSettings.make palette cyc =
        .error "palette must contain at least one color") := by
  have hfil : palette.filter (fun c => c != "") = [] ↔ ∀ c ∈ palette, c = "" := by
    rw [List.filter_eq_nil_iff]
    constructor
    · intro h c hc
      have := h c hc
      simpa using this
    · intro h c hc
      simpa using h c hc
  have herr : (∀ c ∈ palette, c = "") →
      ensure_palette palette = .error "palette must contain at least one color" := by
    intro h
    simp only [ensure_palette]
    rw [if_pos (hfil.mpr h)]
  refine ⟨⟨?_, fun h => ⟨_, herr h⟩⟩, ?_, ?_, ?_, ?_⟩
  · rintro ⟨e, he⟩
    by_contra hne
    rw [← hfil] at hne
    simp only [ensure_palette] at he
    rw [if_neg hne] at he
    exact Except.noConfusion he
  · rintro ⟨c, hc, hcne⟩
    have hne : ¬ palette.filter (fun c => c != "") = [] := by
      rw [hfil]
      intro hall
      exact hcne (hall c hc)
    simp only [ensure_palette]
    rw [if_neg hne]
  · intro l hl
    simp only [ensure_palette] at hl
    by_cases hf : palette.filter (fun c => c != "") = []
    · rw [if_pos hf] at hl
      exact Except.noConfusion hl
    · rw [if_neg hf] at hl
      have hlf := (Except.ok.inj hl).symm
      subst hlf
      refine ⟨List.filter_sublist _, hf, fun c => ?_⟩
      simp [List.mem_filter]
  · intro size sprite h
    simp only [AppearanceSettings.make, herr h, bind, Except.bind]
  · intro cyc h
    simp only [BackgroundSettings.make, herr h, bind, Except.bind]

/-- Witness for C7: the all-empty palette `["", ""]` is rejected while
`["", "#fff", ""]` keeps exactly `["#fff"]`. -/
theorem ensure_palette_filters_and_rejects_all_empty_witness :
    (∃ e, ensure_palette ["", ""] = .error e) ∧
    ensure_palette ["", "#fff", ""] =
      .ok (["", "#fff", ""].filter (fun c => c != "")) :=
  ⟨(ensure_palette_filters_and_rejects_all_empty ["", ""]).1.mpr
      (by intro c hc; simpa using hc),
    (ensure_palette_filters_and_rejects_all_empty ["", "#fff", ""]).2.1
      ⟨"#fff", by simp, by simp⟩⟩

theorem dedupFirst_sublist (l : List String) : (dedupFirst l).Sublist l := by
  induction l with
  | nil => exact List.Sublist.refl _
  | cons x xs ih =>
    exact (List.filter_sublist _).trans ih |>.cons₂ x

theorem mem_dedupFirst (l : List String) (x : String) :
    x ∈ dedupFirst l ↔ x ∈ l := by
  induction l with
  | nil => simp [dedupFirst]
  | cons y ys ih =>
    by_cases hxy : x = y
    · subst hxy
      simp [dedupFirst]
    · simp [dedupFirst, List.mem_filter, ih, hxy]

theorem dedupFirst_nodup (l : List String) : (dedupFirst l).Nodup := by
  induction l with
  | nil => simp [dedupFirst]
  | cons x xs ih =>
    refine List.Nodup.cons ?_ (ih.filter _)
    intro hx
    have := List.of_mem_filter hx
    simp at this

/-- C8: the asset pack agent de-duplicates the required list keeping first
occurrences in their input order (the de-duplicated list is a duplicate-free
sublist with the same members), and reports as missing, in the same order,
exactly the required assets absent from the availability set; in particular
required = ["a", "a", "b"] with available = ["a"] yields ["a", "b"] and
["b"]. -/
theorem assetpack_generate_dedups_and_diffs (req : AssetPackRequest) :
    (AssetPackAgent.generate req).required_assets =
      dedupFirst req.required_assets ∧
    (AssetPackAgent.generate req).required_assets.Nodup ∧
    ((AssetPackAgent.generate req).required_assets).Sublist
      req.required_assets ∧
    (∀ x, x ∈ (AssetPackAgent.generate req).required_assets ↔
      x ∈ req.required_assets) ∧
    ((AssetPackAgent.generate req).missing_assets).Sublist
      (AssetPackAgent.generate req).required_assets ∧
    (∀ x, x ∈ (AssetPackAgent.generate req).missing_assets ↔
      x ∈ req.required_assets ∧ x ∉ req.available_assets) ∧
    AssetPackAgent.generate ⟨["a", "a", "b"], ["a"]⟩ =
      { version := SCHEMA_VERSION, required_assets := ["a", "b"],
        missing_assets := ["b"] } := by
  refine ⟨rfl, dedupFirst_nodup _, dedupFirst_sublist _,
    fun x => mem_dedupFirst _ x, List.filter_sublist _, fun x => ?_, by decide⟩
  simp only [AssetPackAgent.generate, List.mem_filter, mem_dedupFirst]
  constructor
  · rintro ⟨h1, h2⟩
    refine ⟨h1, ?_⟩
    simpa using h2
  · rintro ⟨h1, h2⟩
    refine ⟨h1, ?_⟩
    simpa using h2

/-- Witness for C8 (the universal parts at the concrete example input). -/
theorem assetpack_generate_dedups_and_diffs_witness :
    (∀ x, x ∈ (AssetPackAgent.generate ⟨["a", "a", "b"], ["a"]⟩).missing_assets
      ↔ x ∈ ["a", "a", "b"] ∧ x ∉ ["a"]) :=
  (assetpack_generate_dedups_and_diffs ⟨["a", "a", "b"], ["a"]⟩).2.2.2.2.2.1

/-- C9: the preset agent selects its motion profile by case-insensitive
keyword containment in the prompt: "storm" or "strong" pick the high-energy
profile; otherwise "calm" or "gentle" pick the low-energy profile; with no
keyword the default mid-energy profile is used. -/
theorem choose_motion_keyword_selection (prompt : String) :
    ((strContains (strLower prompt) "storm" = true ∨
      strContains (strLower prompt) "strong" = true) →
      PresetAgent.chooseMotion prompt =
        MotionSettings.make 0.05 50 0.9 120 320 0.4) ∧
    (strContains (strLower prompt) "storm" = false →
      strContains (strLower prompt) "strong" = false →
      (strContains (strLower prompt) "calm" = true ∨
       strContains (strLower prompt) "gentle" = true) →
      PresetAgent.chooseMotion prompt =
        MotionSettings.make 0.18 18 0.4 40 120 0.2) ∧
    (strContains (strLower prompt) "storm" = false →
      strContains (strLower prompt) "strong" = false →
      strContains (strLower prompt) "calm" = false →
      strContains (strLower prompt) "gentle" = false →
      PresetAgent.chooseMotion prompt =
        MotionSettings.make 0.12 30 0.6 90 240 0.3) := by
  refine ⟨fun h => ?_, fun h1 h2 h3 => ?_, fun h1 h2 h3 h4 => ?_⟩ <;>
    simp only [PresetAgent.chooseMotion]
  · rcases h with h | h <;> simp [h]
  · rcases h3 with h | h <;> simp [h1, h2, h]
  · simp [h1, h2, h3, h4]

/-- Witness for C9 at the prompt "Storm of petals" (keyword matched through
lowercasing). -/
theorem choose_motion_keyword_selection_witness :
    (strContains (strLower "Storm of petals") "storm" = true ∨
     strContains (strLower "Storm of petals") "strong" = true) ∧
    PresetAgent.chooseMotion "Storm of petals" =
      MotionSettings.make 0.05 50 0.9 120 320 0.4 :=
  ⟨Or.inl (by decide),
    (choose_motion_keyword_selection "Storm of petals").1 (Or.inl (by decide))⟩

/-- C10: a generated preset contains a burst exactly when both
`burst_interval` and `burst_count` are supplied; when at most one of them is
supplied, generation behaves exactly as if neither were (the incomplete
burst is silently dropped, never an error on its account). -/
theorem preset_burst_requires_both (agent : PresetAgent) (req : PresetRequest) :
    (∀ p, agent.generate req = .ok p →
      (p.emitter.burst.isSome = true ↔
        (req.burst_interval.isSome = true ∧ req.burst_count.isSome = true))) ∧
    ((req.burst_interval = none ∨ req.burst_count = none) →
      agent.generate req = agent.generate
        { req with burst_interval := none, burst_count := none }) := by
  constructor
  · intro p h
    obtain ⟨-, -, -, hb⟩ := generate_ok_fields agent req p h
    rw [hb, Bool.and_eq_true]
  · intro hcase
    rcases hbi : req.burst_interval with _ | itv <;>
      rcases hbc : req.burst_count with _ | cnt
    · simp only [PresetAgent.generate, hbi, hbc]
    · simp only [PresetAgent.generate, hbi, hbc]
    · simp only [PresetAgent.generate, hbi, hbc]
    · exfalso
      rcases hcase with h | h
      · rw [hbi] at h
        exact Option.noConfusion h
      · rw [hbc] at h
        exact Option.noConfusion h

/-- Witness for C10: a request supplying only the burst interval generates
successfully, and the iff certifies the burst is absent. -/
theorem preset_burst_requires_both_witness :
    ∃ p, PresetAgent.generate ⟨⟨100000, 60, 0.75⟩⟩
        { prompt := "calm", burst_interval := some (.num 2) } = .ok p ∧
      (p.emitter.burst.isSome = true ↔
        ((some (PyNum.num 2)).isSome = true ∧
          (none : Option ℤ).isSome = true)) := by
  obtain ⟨p, hp⟩ : ∃ p, PresetAgent.generate ⟨⟨100000, 60, 0.75⟩⟩
      { prompt := "calm", burst_interval := some (.num 2) } = .ok p := ⟨_, rfl⟩
  exact ⟨p, hp, (preset_burst_requires_both _ _).1 p hp⟩

/-- Witness for C3: with `max_speed = 150` and a requested speed of 500, the
generated event's speed is exactly 150 (and within all stated bounds). -/
theorem forcefield_agent_clamps_speed_and_vortex_witness :
    ∃ ev, ForceFieldAgent.applyConstraints ⟨⟨150⟩⟩
        ⟨0, "gust", some 90, some 500, some 5, none, none, none⟩ = .ok ev ∧
      ev.speed = some 150 := by
  have h := forcefield_agent_clamps_speed_and_vortex ⟨⟨150⟩⟩
    ⟨0, "gust", some 90, some 500, some 5, none, none, none⟩
    ⟨0, "gust", some 90, some 150, some 5, none, none, none⟩
    (by norm_num) rfl
  exact ⟨_, rfl, rfl⟩

/-- C1: for bounds `min <= max` and a non-NaN value `v`, `clamp` returns `min`
when `v < min`, `max` when `v > max`, and `v` otherwise — in particular
`clamp(500, 0, 200) = 200` and `clamp(-10, 0, 200) = 0` — while a NaN input
raises a ValidationError whatever the bounds are. -/
theorem clamp_pins_value_and_rejects_nan :
    (∀ lo hi v : ℚ, lo ≤ hi →
      clamp (.num v) (some lo) (some hi) =
        .ok (if v < lo then lo else if hi < v then hi else v)) ∧
    clamp (.num 500) (some 0) (some 200) = .ok 200 ∧
    clamp (.num (-10)) (some 0) (some 200) = .ok 0 ∧
    (∀ min_value max_value : Option ℚ,
      clamp .nan min_value max_value = .error "value cannot be NaN") := by
  refine ⟨?_, by norm_num [clamp, clampQ], by norm_num [clamp, clampQ],
    fun _ _ => rfl⟩
  intro lo hi v hle
  simp only [clamp, clampQ]
  split_ifs with h1 h2 h3 <;> first
    | rfl
    | (exfalso; linarith)

/-- Witness for C1 at `lo = 0`, `hi = 200`, `v = 7`. -/
theorem clamp_pins_value_and_rejects_nan_witness :
    clamp (.num 7) (some (0 : ℚ)) (some 200) =
      .ok (if (7 : ℚ) < 0 then 0 else if (200 : ℚ) < 7 then 200 else 7) :=
  clamp_pins_value_and_rejects_nan.1 0 200 7 (by norm_num)

/-- C2 counterexample: `EmitterSettings` masks its optional seed with
`& 0xFFFFFFFF` rather than clamping it, so the out-of-range input `2^32` is
stored as `0`, not as the nearer bound `2^32 - 1`. -/
theorem emitter_seed_wraps_to_zero :
    (EmitterSettings.make "generic" 10 (SpawnBand.make 0 1) none
        (some 4294967296)).random_seed = some 0 ∧
    (0 : ℤ) ≠ 4294967295 := by
  constructor
  · decide
  · decide

/-- C2 (amended): every ranged numeric field other than
`EmitterSettings.random_seed` saturates to the nearer bound — witnessed by
the shared `clampQ`/`clampInt` primitives every such field goes through, by
the NaN rejection of `clamp`, and by the saturating `ExporterSchema` seed —
while `EmitterSettings.random_seed` is reduced modulo 2^32 (wrapping, never
rejecting); `EmitterSettings.rate_per_sec` itself still saturates. -/
theorem ranged_fields_saturate_except_emitter_seed :
    (∀ v lo hi : ℚ, lo ≤ hi →
      (v < lo → clampQ v (some lo) (some hi) = lo) ∧
      (hi < v → clampQ v (some lo) (some hi) = hi) ∧
      (lo ≤ v → v ≤ hi → clampQ v (some lo) (some hi) = v)) ∧
    (∀ n lo hi : ℤ, lo ≤ hi →
      (n < lo → clampInt n lo hi = lo) ∧
      (hi < n → clampInt n lo hi = hi) ∧
      (lo ≤ n → n ≤ hi → clampInt n lo hi = n)) ∧
    (∀ lo hi : Option ℚ, clamp .nan lo hi = .error "value cannot be NaN") ∧
    (∀ cnt : ℤ, BurstSettings.make .nan cnt = .error "value cannot be NaN") ∧
    (∀ cap wm s, 4294967295 < s →
      (ExporterSchema.make cap wm (some s)).seed = some 4294967295) ∧
    (∀ cap wm s, s < 0 → (ExporterSchema.make cap wm (some s)).seed = some 0) ∧
    (∀ cap wm s, 0 ≤ s → s ≤ 4294967295 →
      (ExporterSchema.make cap wm (some s)).seed = some s) ∧
    (∀ ty r sb b s, (EmitterSettings.make ty r sb b (some s)).random_seed =
      some (s % 4294967296)) ∧
    (∀ ty sb b sd r, MAX_PARTICLE_RATE < r →
      (EmitterSettings.make ty r sb b sd).rate_per_sec = MAX_PARTICLE_RATE) ∧
    (∀ ty sb b sd r, 0 ≤ r → r ≤ MAX_PARTICLE_RATE →
      (EmitterSettings.make ty r sb b sd).rate_per_sec = r) := by
  refine ⟨?_, ?_, fun _ _ => rfl, fun _ => rfl, ?_, ?_, ?_, fun _ _ _ _ _ => rfl,
    ?_, ?_⟩
  · intro v lo hi h
    refine ⟨fun h1 => ?_, fun h1 => ?_, fun h1 h2 => ?_⟩ <;>
      (simp only [clampQ]; split_ifs <;> linarith)
  · intro n lo hi h
    exact clampInt_cases n lo hi h
  · intro cap wm s hs
    simp only [ExporterSchema.make, Option.map]
    have := (clampInt_cases s 0 (2 ^ 32 - 1) (by norm_num)).2.1 (by omega)
    rw [this]
    norm_num
  · intro cap wm s hs
    simp only [ExporterSchema.make, Option.map]
    have := (clampInt_cases s 0 (2 ^ 32 - 1) (by norm_num)).1 (by omega)
    rw [this]
  · intro cap wm s hs1 hs2
    simp only [ExporterSchema.make, Option.map]
    have := (clampInt_cases s 0 (2 ^ 32 - 1) (by norm_num)).2.2 (by omega) (by omega)
    rw [this]
  · intro ty sb b sd r hr
    simp only [EmitterSettings.make]
    exact (clampInt_cases r 0 MAX_PARTICLE_RATE (by norm_num [MAX_PARTICLE_RATE])).2.1 hr
  · intro ty sb b sd r h0 h1
    simp only [EmitterSettings.make]
    exact (clampInt_cases r 0 MAX_PARTICLE_RATE
      (by norm_num [MAX_PARTICLE_RATE])).2.2 h0 h1

/-- Witness for C2 (amended) at concrete inputs: the rational clamp at
`(v, lo, hi) = (500, 0, 200)`, the exporter seed at `2^32`, and the emitter
rate at `200000`. -/
theorem ranged_fields_saturate_except_emitter_seed_witness :
    clampQ 500 (some (0 : ℚ)) (some 200) = 200 ∧
    (ExporterSchema.make (CaptureSettings.make "video" 1920 1080 60 10) none
      (some 4294967296)).seed = some 4294967295 ∧
    (EmitterSettings.make "generic" 200000 (SpawnBand.make 0 1) none
      none).rate_per_sec = MAX_PARTICLE_RATE :=
  ⟨(ranged_fields_saturate_except_emitter_seed.1 500 0 200 (by norm_num)).2.1
      (by norm_num),
    ranged_fields_saturate_except_emitter_seed.2.2.2.2.1 _ none 4294967296
      (by norm_num),
    ranged_fields_saturate_except_emitter_seed.2.2.2.2.2.2.2.2.1 "generic"
      (SpawnBand.make 0 1) none none 200000 (by norm_num [MAX_PARTICLE_RATE])⟩

end Falls
